import Mathlib

/-!
Shallow embedding of the rdk motion-plan manager (planManager.go) and the
collision graph (collision.go part of the same package).  Go maps of type
string-to-interface are embedded as association lists of tagged values;
machine floats that can be NaN or infinite are embedded as the tagged type
FVal; fallible Go code returns Except; nil pointers and nil slices are
embedded as Option.  External collaborators (frame system, IK solver,
geometry distance queries, the sampling planners themselves and the
pseudo-random source) are taken as explicit function parameters, so every
definition is executable on concrete inputs.
-/

namespace Motionplan

/-- Tagged value stored in a Go map of string to interface.  The Go type
assertions v.(float64), v.(string), v.(int) and v.(bool) succeed exactly on
the matching tag. -/
inductive OptVal where
  | num (q : ℚ)
  | int (n : ℤ)
  | str (s : String)
  | boolean (b : Bool)
deriving DecidableEq

/-- Association-list embedding of a Go map of string to interface.  Updates
cons a fresh binding in front; lookup takes the first match, which gives Go
map overwrite semantics. -/
abbrev OptMap := List (String × OptVal)

/-- Lookup in an OptMap, first binding wins. -/
def lookupOpt (m : OptMap) (k : String) : Option OptVal :=
  match m with
  | [] => none
  | (k2, v) :: rest => if k2 = k then some v else lookupOpt rest k

/-- Map update: a new binding shadowing any older one, which is equivalent
to the in-place overwrite done by a Go map assignment. -/
def setOpt (m : OptMap) (k : String) (v : OptVal) : OptMap := (k, v) :: m

/-- Embeds deepAtomicCopyMap: copies all atomic values of the map.  On the
immutable association-list embedding this is the identity. -/
def deepAtomicCopyMap (m : OptMap) : OptMap := m

/-- Key used for the per-plan timeout. -/
def timeoutKey : String := "timeout"

/-- Key used for the motion profile. -/
def motionProfileKey : String := "motion_profile"

/-- Key used for the planning algorithm selector. -/
def planningAlgKey : String := "planning_alg"

/-- Key used for the linear-profile sub-waypoint spacing. -/
def pathStepSizeKey : String := "path_step_size"

/-- Key used for the deterministic random seed override. -/
def rseedKey : String := "rseed"

/-- Motion profile constant. -/
def LinearMotionProfile : String := "linear"

/-- Motion profile constant. -/
def PseudolinearMotionProfile : String := "pseudolinear"

/-- Motion profile constant. -/
def OrientationMotionProfile : String := "orientation"

/-- Motion profile constant. -/
def PositionOnlyMotionProfile : String := "position_only"

/-- Motion profile constant. -/
def FreeMotionProfile : String := "free"

/-- Algorithm name accepted by the planning algorithm switch. -/
def cbirrtName : String := "cbirrt"

/-- Algorithm name accepted by the planning algorithm switch. -/
def rrtstarName : String := "rrtstar"

/-- The empty string, the value of the local Go variables motionProfile and
planAlg when the corresponding key is absent from the options map. -/
def emptyStr : String := ""

/-- Constraint name under which the obstacle constraint is registered. -/
def defaultObstacleConstraintName : String := "obstacle"

/-- Constraint name under which the self-collision constraint is registered. -/
def defaultSelfCollisionConstraintName : String := "self_collision"

/-- Constraint name for the absolute linear interpolation constraint. -/
def defaultLinearConstraintName : String := "linear"

/-- Constraint name for the proportional linear interpolation constraint. -/
def defaultPseudolinearConstraintName : String := "pseudolinear"

/-- Constraint name for the slerp orientation constraint. -/
def defaultOrientationConstraintName : String := "orientation"

/-- Source constant defaultOptimalityMultiple = 2.0. -/
def defaultOptimalityMultiple : ℚ := 2

/-- Source constant defaultFallbackTimeout = 1.5 seconds. -/
def defaultFallbackTimeout : ℚ := 3 / 2

/-- Modelled from the spec: the default per-planner timeout installed by
newBasicPlannerOptions, whose source is not part of this repository slice.
The claims never depend on its numeric value, only on it being the value
left in place when the options map carries no timeout key. -/
def defaultTimeout : ℚ := 300

/-- Modelled from the spec: the default linear-profile sub-waypoint spacing
used when the path step size key is absent.  The claims never depend on its
numeric value. -/
def defaultPathStepSize : ℚ := 10

/-- Planner constructor selector.  The cbirrt constructor is both the
default installed by newBasicPlannerOptions and the one selected by the
explicit cbirrt algorithm name. -/
inductive PlannerType where
  | cbirrt
  | rrtstar
deriving DecidableEq

/-- Embeds the plannerOptions fields the plan manager writes: the names of
the registered constraints in registration order, the planner constructor,
the per-planner timeout, the optional fallback options, the extras map, a
flag recording that a profile-specific path metric was installed, and a
flag recording that the position-only IK metric was installed.  The from
and to poses passed to plannerSetupFromMoveRequest only parameterise the
constraint closures, which are embedded by their registration names, so
they do not appear as fields. -/
inductive PlannerOptions where
  | mk (constraints : List String) (ctor : PlannerType) (timeout : ℚ)
       (fallback : Option PlannerOptions) (extra : OptMap)
       (hasPathDist : Bool) (positionOnlyMetric : Bool)

/-- Registered constraint names, in registration order. -/
def PlannerOptions.constraints : PlannerOptions → List String
  | .mk c _ _ _ _ _ _ => c

/-- Planner constructor selector of an options bundle. -/
def PlannerOptions.ctor : PlannerOptions → PlannerType
  | .mk _ t _ _ _ _ _ => t

/-- Per-planner timeout of an options bundle. -/
def PlannerOptions.timeout : PlannerOptions → ℚ
  | .mk _ _ tmo _ _ _ _ => tmo

/-- Fallback options of an options bundle. -/
def PlannerOptions.fallback : PlannerOptions → Option PlannerOptions
  | .mk _ _ _ fb _ _ _ => fb

/-- Extras map of an options bundle. -/
def PlannerOptions.extra : PlannerOptions → OptMap
  | .mk _ _ _ _ e _ _ => e

/-- Whether a profile-specific path metric was installed. -/
def PlannerOptions.hasPathDist : PlannerOptions → Bool
  | .mk _ _ _ _ _ h _ => h

/-- Whether the position-only IK metric was installed. -/
def PlannerOptions.positionOnlyMetric : PlannerOptions → Bool
  | .mk _ _ _ _ _ _ p => p

/-- Replaces the fallback field, embedding the Go assignment of the
Fallback pointer after the recursive setup call returns. -/
def setFallback : PlannerOptions → Option PlannerOptions → PlannerOptions
  | .mk c t tmo _ e h p, fb => .mk c t tmo fb e h p

/-- Embeds the motion-profile extraction: the profile local variable stays
empty when the key is absent, and a present non-string value is an error. -/
def motionProfileFromOpts (m : OptMap) : Except String String :=
  match lookupOpt m motionProfileKey with
  | none => Except.ok emptyStr
  | some (OptVal.str s) => Except.ok s
  | some _ => Except.error ("could not interpret motion_profile field as string")

/-- Embeds the planning-algorithm extraction: the planAlg local variable
stays empty when the key is absent, and a present non-string value is an
error. -/
def planningAlgFromOpts (m : OptMap) : Except String String :=
  match lookupOpt m planningAlgKey with
  | none => Except.ok emptyStr
  | some (OptVal.str s) => Except.ok s
  | some _ => Except.error ("could not interpret planning_alg field as string")

/-- Embeds the json round trip that overwrites the numeric defaults of the
options object from the options map: a numeric timeout key overwrites the
default timeout, an absent key leaves the default, and a non-numeric value
fails to unmarshal. -/
def timeoutFromOpts (m : OptMap) : Except String ℚ :=
  match lookupOpt m timeoutKey with
  | none => Except.ok defaultTimeout
  | some (OptVal.num q) => Except.ok q
  | some (OptVal.int n) => Except.ok (n : ℚ)
  | some _ => Except.error ("cannot unmarshal timeout option")

/-- Embeds plannerSetupFromMoveRequest.  The two collision constraints are
registered first; the motion profile and planning algorithm strings are
extracted with their error cases; an explicit rrtstar selection returns
early with no fallback and no profile constraint; otherwise the profile
switch adds its constraint, and the free or unrecognised profile case with
no selected algorithm builds the try-first bundle by copying the extras
with the timeout overridden to defaultFallbackTimeout and the algorithm
set to rrtstar, recursing, and splicing the original options in as the
fallback of the recursive result.  The external constraint constructors
are embedded as the registration of their names.  The recursion depth of
the source is at most one because the recursive call always selects
rrtstar; the fuel argument makes that termination explicit. -/
def plannerSetupFromMoveRequest (fuel : Nat) (planningOpts : OptMap) :
    Except String PlannerOptions :=
  match fuel with
  | 0 => Except.error ("fallback recursion limit exceeded")
  | Nat.succ fuelRest =>
    let baseConstraints : List String :=
      [defaultObstacleConstraintName, defaultSelfCollisionConstraintName]
    match motionProfileFromOpts planningOpts with
    | Except.error e => Except.error e
    | Except.ok motionProfile =>
      match timeoutFromOpts planningOpts with
      | Except.error e => Except.error e
      | Except.ok timeoutVal =>
        match planningAlgFromOpts planningOpts with
        | Except.error e => Except.error e
        | Except.ok planAlg =>
          if planAlg = rrtstarName then
            Except.ok (PlannerOptions.mk baseConstraints PlannerType.rrtstar timeoutVal
              none planningOpts false false)
          else
            if motionProfile = LinearMotionProfile then
              Except.ok (PlannerOptions.mk (baseConstraints ++ [defaultLinearConstraintName])
                PlannerType.cbirrt timeoutVal none planningOpts true false)
            else if motionProfile = PseudolinearMotionProfile then
              Except.ok (PlannerOptions.mk (baseConstraints ++ [defaultPseudolinearConstraintName])
                PlannerType.cbirrt timeoutVal none planningOpts true false)
            else if motionProfile = OrientationMotionProfile then
              Except.ok (PlannerOptions.mk (baseConstraints ++ [defaultOrientationConstraintName])
                PlannerType.cbirrt timeoutVal none planningOpts true false)
            else if motionProfile = PositionOnlyMotionProfile then
              Except.ok (PlannerOptions.mk baseConstraints PlannerType.cbirrt timeoutVal
                none planningOpts false true)
            else
              if planAlg = emptyStr then
                let try1 := setOpt (setOpt (deepAtomicCopyMap planningOpts) timeoutKey
                  (OptVal.num defaultFallbackTimeout)) planningAlgKey (OptVal.str rrtstarName)
                match plannerSetupFromMoveRequest fuelRest try1 with
                | Except.error e => Except.error e
                | Except.ok try1Opt =>
                  Except.ok (setFallback try1Opt (some (PlannerOptions.mk baseConstraints
                    PlannerType.cbirrt timeoutVal none planningOpts false false)))
              else
                Except.ok (PlannerOptions.mk baseConstraints PlannerType.cbirrt timeoutVal
                  none planningOpts false false)

/-- Planner constructor of a setup result, when the setup succeeded. -/
def resultCtor (r : Except String PlannerOptions) : Option PlannerType :=
  match r with
  | Except.ok opt => some opt.ctor
  | Except.error _ => none

/-- Whether a successful setup result carries a fallback options bundle. -/
def resultHasFallback (r : Except String PlannerOptions) : Bool :=
  match r with
  | Except.ok opt => opt.fallback.isSome
  | Except.error _ => false

/-- A joint configuration: the ordered vector of scalar joint inputs. -/
abbrev Config := List ℚ

/-- Embeds the goal-building loop of PlanSingleWaypoint for the linear
profile.  The loop index starts at one and runs while it is below the step
count; each iteration interpolates between the seed pose and the goal pose
at the fraction index over step count, records the interpolant as a goal,
records the from and to poses handed to the per-segment options setup, and
carries the interpolant forward as the next from pose; after the loop the
original goal pose is appended with the carried pose as its from pose. -/
def decomposeAuxCount {P : Type} (interp : P → P → ℚ → P) (seedPos goalPos : P)
    (numSteps : Nat) : Nat → Nat → P → List P × List (P × P)
  | 0, _, fromPose => ([goalPos], [(fromPose, goalPos)])
  | k + 1, i, fromPose =>
    let toPose := interp seedPos goalPos ((i : ℚ) / (numSteps : ℚ))
    let rest := decomposeAuxCount interp seedPos goalPos numSteps k (i + 1) toPose
    (toPose :: rest.1, (fromPose, toPose) :: rest.2)

/-- The goal-building loop entered at index i: the remaining trip count of
the source loop condition, index below step count, is the step count minus
the index. -/
def decomposeAux {P : Type} (interp : P → P → ℚ → P) (seedPos goalPos : P)
    (numSteps i : Nat) (fromPose : P) : List P × List (P × P) :=
  decomposeAuxCount interp seedPos goalPos numSteps (numSteps - i) i fromPose

/-- Embeds the path step size extraction: a numeric value under the path
step size key, with the documented default when the key is absent or the
stored value fails the float type assertion. -/
def pathStepSizeFromOpts (m : OptMap) : ℚ :=
  match lookupOpt m pathStepSizeKey with
  | some (OptVal.num q) => q
  | _ => defaultPathStepSize

/-- Embeds the waypoint decomposition of PlanSingleWaypoint: when the
motion profile key holds the linear profile string, the path step size is
read from the options map with its default, the external step count
function is consulted, and the goal loop runs from the seed pose;
otherwise the goal pose is the single goal, set up from the seed pose.
Returns the goals list and the list of from and to pose pairs handed to
the per-segment options setup calls, in order.  The external PathStepCount
and spatialmath Interpolate functions are explicit parameters. -/
def planSingleWaypointDecompose {P : Type} (interp : P → P → ℚ → P)
    (pathStepCount : P → P → ℚ → Nat) (seedPos goalPos : P)
    (motionConfig : OptMap) : List P × List (P × P) :=
  if lookupOpt motionConfig motionProfileKey = some (OptVal.str LinearMotionProfile) then
    decomposeAux interp seedPos goalPos
      (pathStepCount seedPos goalPos (pathStepSizeFromOpts motionConfig)) 1 seedPos
  else
    ([goalPos], [(seedPos, goalPos)])

/-- Message text prepended when a composite plan fails after passing the
viability check. -/
def failedPlanMsg : String := "failed to plan path for valid goal: "

/-- Embeds the tail of PlanSingleWaypoint: with more than one sub-goal the
external IK query getSolutions is run on the final goal pose from the
original seed and its error fails the request before the atomic planning
thunk is forced; a planning error after a multi-goal decomposition is
wrapped with the failed-plan message; with a single goal no viability
check runs and errors pass through unwrapped. -/
def planSingleWaypointFinal {P : Type} (getSolutions : P → Config → Except String Unit)
    (planAtomic : Unit → Except String (List Config))
    (goals : List P) (goalPos : P) (seed : Config) : Except String (List Config) :=
  if 1 < goals.length then
    match getSolutions goalPos seed with
    | Except.error e => Except.error e
    | Except.ok _ =>
      match planAtomic () with
      | Except.error e => Except.error (failedPlanMsg ++ e)
      | Except.ok r => Except.ok r
  else
    match planAtomic () with
    | Except.error e => Except.error e
    | Except.ok r => Except.ok r

/-- Embeds the per-planner random source derivation of PlanSingleWaypoint
and planParallelRRTMotion: when the extras map holds an integer under the
rseed key, the planner source is seeded from it and the manager source is
left untouched; otherwise one integer is drawn from the manager source,
advancing it.  The manager source is an explicit deterministic state with
a draw function. -/
def derivePlannerSeed {S : Type} (draw : S → ℤ × S) (extra : OptMap) (st : S) : ℤ × S :=
  match lookupOpt extra rseedKey with
  | some (OptVal.int s) => (s, st)
  | _ => draw st

/-- Embeds the planner construction loop of PlanSingleWaypoint: one random
seed is derived per options bundle, in order, threading the manager random
source through the derivations. -/
def buildPlannerSeeds {S : Type} (draw : S → ℤ × S) :
    List OptMap → S → List ℤ × S
  | [], st => ([], st)
  | extra :: rest, st =>
    let ps := derivePlannerSeed draw extra st
    let tail := buildPlannerSeeds draw rest ps.2
    (ps.1 :: tail.1, tail.2)

/-- Manager random source advanced by a number of draws. -/
def drawIter {S : Type} (draw : S → ℤ × S) : Nat → S → S
  | 0, st => st
  | n + 1, st => drawIter draw n (draw st).2

/-- Value of the draw at a given position of the manager random stream. -/
def drawAt {S : Type} (draw : S → ℤ × S) (st : S) (n : Nat) : ℤ :=
  (draw (drawIter draw n st)).1

/-- Whether an extras map carries an integer rseed entry. -/
def hasIntRseed (extra : OptMap) : Bool :=
  match lookupOpt extra rseedKey with
  | some (OptVal.int _) => true
  | _ => false

/-- Number of options bundles in a list that draw from the manager source. -/
def managerDrawCount (l : List OptMap) : Nat :=
  (l.filter (fun e => !hasIntRseed e)).length

/-- Embeds the whole pipeline as a function of its inputs: the composite
path is whatever the external planners, taken as a deterministic function
of the derived per-planner seeds, produce. -/
def planSingleWaypointPipeline {S Path : Type} (draw : S → ℤ × S)
    (planWith : List ℤ → Path) (opts : List OptMap) (st : S) : Path :=
  planWith (buildPlannerSeeds draw opts st).1

/-- Embeds the rrtMaps data read by the plan manager: the cost of the
optimal-cost node derived from the IK solutions.  The tree contents are
owned by the planners and never inspected by the code under proof. -/
structure RRTMaps where
  optNodeCost : ℚ
deriving DecidableEq

/-- Embeds rrtPlanReturn: the planned steps as node configurations, the
planning error, and the pointer to the rrt maps.  A nil steps slice, a nil
error and a nil maps pointer are the none cases. -/
structure RRTPlanReturn where
  steps : Option (List Config)
  planerr : Option String
  maps : Option RRTMaps
deriving DecidableEq

/-- Modelled from the spec: EvaluatePlan, whose source is not part of this
repository slice, sums the distance function over adjacent configurations
of a path. -/
def EvaluatePlan (dist : Config → Config → ℚ) : List Config → ℚ
  | q1 :: q2 :: rest => dist q1 q2 + EvaluatePlan dist (q2 :: rest)
  | _ => 0

/-- Score comparison against a score that is positive infinity when the
option is none, mirroring the float comparison against math.Inf(1). -/
def ltScore (c : ℚ) (s : Option ℚ) : Bool :=
  match s with
  | none => true
  | some q => decide (c < q)

/-- Embeds goodPlan: with a nil steps slice the result is not good and the
score is infinite; otherwise a non-positive optimal cost makes any plan
good with an infinite score; otherwise the path cost is computed with the
distance function of the options and the plan is good exactly when that
cost is below the optimal cost times the optimality multiple.  The outer
none models the nil-pointer dereference of the maps field that the Go code
would perform when steps are present but the maps pointer is nil. -/
def goodPlan (pr : RRTPlanReturn) (dist : Config → Config → ℚ) :
    Option (Bool × Option ℚ) :=
  match pr.steps with
  | none => some (false, none)
  | some steps =>
    match pr.maps with
    | none => none
    | some m =>
      if m.optNodeCost ≤ 0 then some (true, none)
      else
        let solutionCost := EvaluatePlan dist steps
        if solutionCost < m.optNodeCost * defaultOptimalityMultiple then
          some (true, some solutionCost)
        else
          some (false, some solutionCost)

/-- Embeds the fallback-start decision of planParallelRRTMotion, from the
arrival of the primary result on the planner channel to the optional
launch of the fallback: the map seed starts as the maps of the primary
result; the fallback planner exists when the options carry a fallback and
its constructor succeeds; with no primary error and an existing fallback
planner, a good primary plan discards the fallback while a bad one keeps
it and clears the map seed so the fallback reseeds from scratch; with a
primary error the fallback, when it exists, runs with the primary maps.
Returns whether the fallback is started and the maps argument it would
receive; the outer none models the nil-maps dereference inside goodPlan. -/
def fallbackStartDecision (fs : RRTPlanReturn) (dist : Config → Config → ℚ)
    (hasFallback constructOk : Bool) : Option (Bool × Option RRTMaps) :=
  let avail := hasFallback && constructOk
  if fs.planerr = none then
    if avail then
      match goodPlan fs dist with
      | none => none
      | some gp => if gp.1 then some (false, fs.maps) else some (true, none)
    else some (false, fs.maps)
  else some (avail, fs.maps)

/-- Embeds the fallback-keep decision of planParallelRRTMotion, from the
receipt of the smoothed primary path to the send on the solution channel:
the primary return is re-scored after its steps are replaced by the
smoothed path; with no fallback future, or a fallback future that resolved
to an error, the smoothed primary is emitted unchanged and the fallback
error goes nowhere; with a successful fallback path, the fallback cost
under the distance function of the options replaces the primary exactly
when it is strictly below the smoothed score, the replacement being a
fresh return holding only the fallback steps.  The outer none models the
nil-maps dereference inside goodPlan. -/
def fallbackDecision (fs : RRTPlanReturn) (smoothed : Option (List Config))
    (dist : Config → Config → ℚ)
    (alternate : Option (Except String (List Config))) : Option RRTPlanReturn :=
  let fsSm : RRTPlanReturn := { steps := smoothed, planerr := fs.planerr, maps := fs.maps }
  match goodPlan fsSm dist with
  | none => none
  | some gp =>
    some (match alternate with
      | none => fsSm
      | some (Except.error _) => fsSm
      | some (Except.ok alt) =>
        if ltScore (EvaluatePlan dist alt) gp.2 then
          { steps := some alt, planerr := none, maps := none }
        else fsSm)

/-- Embeds the success path of planSingleAtomicWaypoint: a planner error is
returned as-is; on success the seed for the next waypoint is read with the
unguarded index at length minus one and the steps become the materialised
result promise.  The outer none models the out-of-range panic that the Go
code performs on a successful empty path, for which no emptiness check
exists. -/
def planSingleAtomicWaypointSeed (planRes : Except String (List Config)) :
    Option (Except String (Config × List Config)) :=
  match planRes with
  | Except.error e => some (Except.error e)
  | Except.ok steps =>
    match steps[steps.length - 1]? with
    | none => none
    | some last => some (Except.ok (last, steps))

/-- Embedded machine float for geometry distances: finite rational, the two
infinities used by the boolean collision check, and NaN, which compares
false against everything. -/
inductive FVal where
  | fin (q : ℚ)
  | pinf
  | ninf
  | nan
deriving DecidableEq

/-- The float comparison of a stored distance against a rational bound:
false for NaN and positive infinity, true for negative infinity. -/
def FVal.leq (v : FVal) (q : ℚ) : Bool :=
  match v with
  | .fin x => decide (x ≤ q)
  | .pinf => false
  | .ninf => true
  | .nan => false

/-- Modelled from the spec: the global collision buffer constant of the
spatialmath package, whose source is not part of this repository slice.
The claims never depend on its numeric value. -/
def CollisionBuffer : ℚ := 1 / 100000000

/-- Association-list embedding of the nested distances table of the
geometry graph, keyed by an ordered pair of geometry names. -/
abbrev Distances := List ((String × String) × FVal)

/-- Lookup of the entry stored under the ordered key pair, first binding
wins. -/
def lookupDist (d : Distances) (a b : String) : Option FVal :=
  match d with
  | [] => none
  | ((x, y), v) :: rest => if x = a ∧ y = b then some v else lookupDist rest a b

/-- Binding update under an ordered key pair, shadowing any older binding,
which is equivalent to the in-place overwrite of the nested Go map. -/
def updateDist (d : Distances) (a b : String) (v : FVal) : Distances :=
  ((a, b), v) :: d

/-- Embeds setDistance: when an entry already exists under the reversed
ordered pair it is overwritten there, otherwise the entry is written under
the given order, so at most one orientation of an unordered pair is ever
populated. -/
def setDistance (d : Distances) (xName yName : String) (v : FVal) : Distances :=
  if (lookupDist d yName xName).isSome then
    updateDist d yName xName v
  else
    updateDist d xName yName v

/-- Embeds getDistance: the ordered pair is tried in the given order and
then reversed; an absent pair reports not found, embedded as none. -/
def getDistance (d : Distances) (n1 n2 : String) : Option FVal :=
  match lookupDist d n1 n2 with
  | some v => some v
  | none => lookupDist d n2 n1

/-- Embeds collisionBetween: a collision is reported exactly when a
distance is found for the pair and it compares at or below the collision
buffer; the NaN comparison is false by the float semantics of FVal.leq. -/
def collisionBetween (d : Distances) (n1 n2 : String) : Bool :=
  match getDistance d n1 n2 with
  | some v => FVal.leq v CollisionBuffer
  | none => false

/-- Well-formedness of a distances table: every stored ordered pair with
distinct names has no entry stored under the reversed order.  This is the
canonical unordered-pair storage discipline that setDistance maintains. -/
def wfDistances (d : Distances) : Bool :=
  d.all (fun e => e.1.1 = e.1.2 || (lookupDist d e.1.2 e.1.1).isNone)

/-- Embeds checkCollision: with distance reporting on, the external
distance query is used; otherwise the external boolean collision query is
used and encoded as an infinity. -/
def checkCollision (distFn : Nat → Nat → FVal) (collidesFn : Nat → Nat → Bool)
    (reportDistances : Bool) (x y : Nat) : FVal :=
  if reportDistances then distFn x y
  else if collidesFn x y then FVal.ninf else FVal.pinf

/-- Distance stored for one geometry pair of the newCollisionGraph loop:
a pair listed as colliding in the reference graph is stored as NaN, which
the float semantics never reports as a collision; otherwise the distance
comes from checkCollision.  Geometry identity is embedded as a natural
number tag. -/
def cgPairDistance (distFn : Nat → Nat → FVal) (collidesFn : Nat → Nat → Bool)
    (reference : Option Distances) (reportDistances : Bool) (xe ye : String × Nat) : FVal :=
  match reference with
  | some ref =>
    if collisionBetween ref xe.1 ye.1 then FVal.nan
    else checkCollision distFn collidesFn reportDistances xe.2 ye.2
  | none => checkCollision distFn collidesFn reportDistances xe.2 ye.2

/-- Embeds one iteration of the nested pair loop of newCollisionGraph over
the running table and the early-exit flag: a pair that already has an
entry, or whose geometries are the same object, is skipped; otherwise the
pair distance is stored with setDistance, and with distance reporting off
a stored collision sets the early-exit flag. -/
def cgPairStep (distFn : Nat → Nat → FVal) (collidesFn : Nat → Nat → Bool)
    (reference : Option Distances) (reportDistances : Bool)
    (st : Distances × Bool) (xe ye : String × Nat) : Distances × Bool :=
  if st.2 then st
  else if (getDistance st.1 xe.1 ye.1).isSome ∨ xe.2 = ye.2 then st
  else
    if reportDistances = false ∧
        FVal.leq (cgPairDistance distFn collidesFn reference reportDistances xe ye)
          CollisionBuffer then
      (setDistance st.1 xe.1 ye.1
        (cgPairDistance distFn collidesFn reference reportDistances xe ye), true)
    else
      (setDistance st.1 xe.1 ye.1
        (cgPairDistance distFn collidesFn reference reportDistances xe ye), false)

/-- Embeds newCollisionGraph: a nil second geometry set is replaced by the
first, and the nested loop over both sets fills the distances table of a
fresh graph, possibly exiting early.  Returns the distances table. -/
def newCollisionGraph (distFn : Nat → Nat → FVal) (collidesFn : Nat → Nat → Bool)
    (reference : Option Distances) (reportDistances : Bool)
    (x : List (String × Nat)) (y : Option (List (String × Nat))) : Distances :=
  let yy := match y with
    | none => x
    | some l => l
  (x.foldl (fun st xe =>
    yy.foldl (fun st2 ye => cgPairStep distFn collidesFn reference reportDistances st2 xe ye) st)
    ([], false)).1

/-- Sample planner error text used by concrete instances. -/
def sampleErr : String := "planner found no path"

/-- Sample geometry name used by concrete instances. -/
def gnameA : String := "armlink"

/-- Sample geometry name used by concrete instances. -/
def gnameB : String := "box"

/-- Sample geometry name used by concrete instances. -/
def gnameC : String := "table"

/-- Sample distance table used by concrete instances: one collision stored
under one orientation and one ignored NaN pair. -/
def sampleGraph : Distances := [((gnameA, gnameB), FVal.ninf), ((gnameA, gnameC), FVal.nan)]

/-! Shared lemmas about map lookups and the options setup. -/

theorem lookupOpt_setOpt_same (m : OptMap) (k : String) (v : OptVal) :
    lookupOpt (setOpt m k v) k = some v := by
  simp [setOpt, lookupOpt]

theorem lookupOpt_setOpt_other (m : OptMap) (k k2 : String) (v : OptVal) (h : k2 ≠ k) :
    lookupOpt (setOpt m k2 v) k = lookupOpt m k := by
  simp [setOpt, lookupOpt, h]

theorem plannerSetup_of_alg_rrtstar (fuel : Nat) (m : OptMap) (prof : String) (t : ℚ)
    (halg : lookupOpt m planningAlgKey = some (OptVal.str rrtstarName))
    (hprof : motionProfileFromOpts m = Except.ok prof)
    (ht : timeoutFromOpts m = Except.ok t) :
    plannerSetupFromMoveRequest (fuel + 1) m =
      Except.ok (PlannerOptions.mk
        [defaultObstacleConstraintName, defaultSelfCollisionConstraintName]
        PlannerType.rrtstar t none m false false) := by
  have halg2 : planningAlgFromOpts m = Except.ok rrtstarName := by
    unfold planningAlgFromOpts
    rw [halg]
  unfold plannerSetupFromMoveRequest
  rw [hprof, ht, halg2]
  simp

theorem try1_lookup_profile (m : OptMap) :
    motionProfileFromOpts (setOpt (setOpt (deepAtomicCopyMap m) timeoutKey
      (OptVal.num defaultFallbackTimeout)) planningAlgKey (OptVal.str rrtstarName)) =
    motionProfileFromOpts m := by
  unfold motionProfileFromOpts
  rw [lookupOpt_setOpt_other _ _ _ _ (by decide), lookupOpt_setOpt_other _ _ _ _ (by decide)]
  rfl

/-- C1 (amended): for a move request with no planning algorithm key and a
motion profile that is free, unspecified or unrecognised, the options
setup returns the try-first bundle: planner constructor rrtstar, timeout
equal to the documented fallback timeout of one and a half seconds, and
the fully configured original options, carrying their full timeout,
spliced in as the fallback.  The motion-profile restriction is forced by
the counterexample: for the linear, pseudolinear, orientation and
position-only profiles the source constructs no fallback because the
try-first construction sits inside the free-or-default case of the
profile switch. -/
theorem planner_setup_try_first (m : OptMap) (prof : String) (t : ℚ) (f : Nat)
    (halg : lookupOpt m planningAlgKey = none)
    (hprof : motionProfileFromOpts m = Except.ok prof)
    (h1 : prof ≠ LinearMotionProfile) (h2 : prof ≠ PseudolinearMotionProfile)
    (h3 : prof ≠ OrientationMotionProfile) (h4 : prof ≠ PositionOnlyMotionProfile)
    (ht : timeoutFromOpts m = Except.ok t) :
    plannerSetupFromMoveRequest (f + 2) m =
      Except.ok (PlannerOptions.mk
        [defaultObstacleConstraintName, defaultSelfCollisionConstraintName]
        PlannerType.rrtstar defaultFallbackTimeout
        (some (PlannerOptions.mk
          [defaultObstacleConstraintName, defaultSelfCollisionConstraintName]
          PlannerType.cbirrt t none m false false))
        (setOpt (setOpt (deepAtomicCopyMap m) timeoutKey (OptVal.num defaultFallbackTimeout))
          planningAlgKey (OptVal.str rrtstarName))
        false false) := by
  have halg0 : planningAlgFromOpts m = Except.ok emptyStr := by
    unfold planningAlgFromOpts
    rw [halg]
  have hrec : plannerSetupFromMoveRequest (f + 1)
      (setOpt (setOpt (deepAtomicCopyMap m) timeoutKey (OptVal.num defaultFallbackTimeout))
        planningAlgKey (OptVal.str rrtstarName)) =
      Except.ok (PlannerOptions.mk
        [defaultObstacleConstraintName, defaultSelfCollisionConstraintName]
        PlannerType.rrtstar defaultFallbackTimeout none
        (setOpt (setOpt (deepAtomicCopyMap m) timeoutKey (OptVal.num defaultFallbackTimeout))
          planningAlgKey (OptVal.str rrtstarName)) false false) := by
    refine plannerSetup_of_alg_rrtstar f _ prof defaultFallbackTimeout ?_ ?_ ?_
    · exact lookupOpt_setOpt_same _ _ _
    · rw [try1_lookup_profile]
      exact hprof
    · unfold timeoutFromOpts
      rw [lookupOpt_setOpt_other _ _ _ _ (by decide), lookupOpt_setOpt_same]
  have hsucc : f + 2 = (f + 1) + 1 := rfl
  rw [hsucc]
  unfold plannerSetupFromMoveRequest
  rw [hprof, ht, halg0]
  simp only [reduceIte, if_neg h1, if_neg h2, if_neg h3, if_neg h4]
  rw [hrec]
  rw [if_neg (show ¬(emptyStr = rrtstarName) by decide)]
  rfl

/-- Counterexample for C1 as stated: a move request holding only the
linear motion profile has no planning algorithm key, yet the options
setup returns the cbirrt constructor, not rrtstar, and no fallback at
all: the try-first wiring is skipped for the linear profile. -/
theorem planner_setup_try_first_cex :
    lookupOpt [(motionProfileKey, OptVal.str LinearMotionProfile)] planningAlgKey = none
    ∧ resultCtor (plannerSetupFromMoveRequest 2
        [(motionProfileKey, OptVal.str LinearMotionProfile)]) = some PlannerType.cbirrt
    ∧ resultHasFallback (plannerSetupFromMoveRequest 2
        [(motionProfileKey, OptVal.str LinearMotionProfile)]) = false :=
  ⟨rfl, rfl, rfl⟩

/-- Witness for C1: the empty options map has no planning algorithm key
and an absent profile, and the setup produces the try-first bundle with
the original options as fallback. -/
theorem planner_setup_try_first_witness :
    lookupOpt ([] : OptMap) planningAlgKey = none
    ∧ plannerSetupFromMoveRequest 2 ([] : OptMap) =
      Except.ok (PlannerOptions.mk
        [defaultObstacleConstraintName, defaultSelfCollisionConstraintName]
        PlannerType.rrtstar defaultFallbackTimeout
        (some (PlannerOptions.mk
          [defaultObstacleConstraintName, defaultSelfCollisionConstraintName]
          PlannerType.cbirrt defaultTimeout none [] false false))
        (setOpt (setOpt (deepAtomicCopyMap []) timeoutKey (OptVal.num defaultFallbackTimeout))
          planningAlgKey (OptVal.str rrtstarName))
        false false) :=
  ⟨rfl, planner_setup_try_first [] emptyStr defaultTimeout 0 rfl rfl (by decide) (by decide)
    (by decide) (by decide) rfl⟩

/-- C7: for a move request whose options map holds the rrtstar planning
algorithm, the options setup returns early regardless of the motion
profile string: the rrtstar constructor, a nil fallback, and only the
obstacle and self-collision constraints, with no profile-specific
constraint or metric. -/
theorem plannerSetup_rrtstar_early (m : OptMap) (prof : String) (t : ℚ) (f : Nat)
    (halg : lookupOpt m planningAlgKey = some (OptVal.str rrtstarName))
    (hprof : motionProfileFromOpts m = Except.ok prof)
    (ht : timeoutFromOpts m = Except.ok t) :
    plannerSetupFromMoveRequest (f + 1) m =
      Except.ok (PlannerOptions.mk
        [defaultObstacleConstraintName, defaultSelfCollisionConstraintName]
        PlannerType.rrtstar t none m false false) :=
  plannerSetup_of_alg_rrtstar f m prof t halg hprof ht

/-- Witness for C7: an options map selecting rrtstar together with the
linear motion profile still returns early with no linear constraint and
no fallback. -/
theorem plannerSetup_rrtstar_early_witness :
    lookupOpt [(planningAlgKey, OptVal.str rrtstarName),
        (motionProfileKey, OptVal.str LinearMotionProfile)] planningAlgKey =
      some (OptVal.str rrtstarName)
    ∧ plannerSetupFromMoveRequest 1 [(planningAlgKey, OptVal.str rrtstarName),
        (motionProfileKey, OptVal.str LinearMotionProfile)] =
      Except.ok (PlannerOptions.mk
        [defaultObstacleConstraintName, defaultSelfCollisionConstraintName]
        PlannerType.rrtstar defaultTimeout none
        [(planningAlgKey, OptVal.str rrtstarName),
          (motionProfileKey, OptVal.str LinearMotionProfile)] false false) :=
  ⟨rfl, plannerSetup_rrtstar_early _ LinearMotionProfile defaultTimeout 0 rfl rfl rfl⟩

/-- C6: with a non-nil step set and a positive optimal cost, goodPlan
accepts exactly when the summed distance cost of the path is strictly
below the optimal cost times the optimality multiple of two; with a
non-positive optimal cost every returned plan is accepted. -/
theorem goodPlan_optimality_threshold (pr : RRTPlanReturn) (dist : Config → Config → ℚ)
    (steps : List Config) (m : RRTMaps)
    (hs : pr.steps = some steps) (hm : pr.maps = some m) :
    (0 < m.optNodeCost →
      (((goodPlan pr dist).map Prod.fst = some true) ↔
        EvaluatePlan dist steps < m.optNodeCost * defaultOptimalityMultiple))
    ∧ (m.optNodeCost ≤ 0 → goodPlan pr dist = some (true, none)) := by
  constructor
  · intro hpos
    simp only [goodPlan, hs, hm]
    rw [if_neg (not_le.mpr hpos)]
    by_cases hc : EvaluatePlan dist steps < m.optNodeCost * defaultOptimalityMultiple
    · simp [hc]
    · simp [hc]
  · intro hneg
    simp only [goodPlan, hs, hm]
    rw [if_pos hneg]

/-- Witness for C6: a one-configuration plan against a degenerate optimal
cost of minus one is accepted with an infinite score. -/
theorem goodPlan_optimality_threshold_witness :
    (RRTPlanReturn.mk (some [[0]]) none (some (RRTMaps.mk (-1)))).steps = some [[0]]
    ∧ ((-1 : ℚ) ≤ 0)
    ∧ goodPlan (RRTPlanReturn.mk (some [[0]]) none (some (RRTMaps.mk (-1))))
        (fun _ _ => 0) = some (true, none) :=
  ⟨rfl, by decide,
    (goodPlan_optimality_threshold (RRTPlanReturn.mk (some [[0]]) none
      (some (RRTMaps.mk (-1)))) (fun _ _ => 0) [[0]] (RRTMaps.mk (-1)) rfl rfl).2 (by decide)⟩

/-- C3: when the primary parallel result carries no error, the fallback
options exist and the fallback constructor succeeds, the fallback is
started exactly when goodPlan rejects the unsmoothed primary path, and a
started fallback receives a nil maps argument so it reseeds from scratch
rather than receiving the primary's completed tree maps. -/
theorem planParallel_fallback_start (fs : RRTPlanReturn) (dist : Config → Config → ℚ)
    (ok : Bool) (s : Option ℚ) (herr : fs.planerr = none)
    (hgp : goodPlan fs dist = some (ok, s)) :
    fallbackStartDecision fs dist true true =
      some (!ok, if ok then fs.maps else none) := by
  unfold fallbackStartDecision
  rw [if_pos herr]
  simp [hgp]
  cases ok <;> simp

/-- Witness for C3: a successful primary against a degenerate optimal cost
is good, so the fallback is not started and the map seed stays the
primary's maps. -/
theorem planParallel_fallback_start_witness :
    (RRTPlanReturn.mk (some [[0]]) none (some (RRTMaps.mk (-1)))).planerr = none
    ∧ fallbackStartDecision (RRTPlanReturn.mk (some [[0]]) none (some (RRTMaps.mk (-1))))
        (fun _ _ => 0) true true =
      some (!true, if true then (RRTPlanReturn.mk (some [[0]]) none
        (some (RRTMaps.mk (-1)))).maps else none) :=
  ⟨rfl, planParallel_fallback_start (RRTPlanReturn.mk (some [[0]]) none
    (some (RRTMaps.mk (-1)))) (fun _ _ => 0) true none rfl rfl⟩

/-- C2: once the smoothed primary path has been scored, an absent fallback
future or a fallback future that resolved to an error leaves the smoothed
primary as the value emitted on the solution channel, the fallback error
reaching nobody; a successful fallback path replaces the primary exactly
when its cost under the distance function of the options is strictly
below the smoothed score. -/
theorem planParallel_fallback_choice (fs : RRTPlanReturn) (smoothed : Option (List Config))
    (dist : Config → Config → ℚ) (good : Bool) (score : Option ℚ)
    (hscore : goodPlan (RRTPlanReturn.mk smoothed fs.planerr fs.maps) dist
      = some (good, score)) :
    (fallbackDecision fs smoothed dist none =
      some (RRTPlanReturn.mk smoothed fs.planerr fs.maps))
    ∧ (∀ e, fallbackDecision fs smoothed dist (some (Except.error e)) =
      some (RRTPlanReturn.mk smoothed fs.planerr fs.maps))
    ∧ (∀ alt, fallbackDecision fs smoothed dist (some (Except.ok alt)) =
      some (if ltScore (EvaluatePlan dist alt) score
        then RRTPlanReturn.mk (some alt) none none
        else RRTPlanReturn.mk smoothed fs.planerr fs.maps)) := by
  unfold fallbackDecision
  simp [hscore]

/-- Witness for C2: with a degenerate optimal cost the smoothed score is
infinite, so any successful fallback path strictly improves on it and
replaces the primary, while a failing fallback leaves the smoothed
primary in place. -/
theorem planParallel_fallback_choice_witness :
    goodPlan (RRTPlanReturn.mk (some [[0]]) none (some (RRTMaps.mk (-1)))) (fun _ _ => 0)
      = some (true, none)
    ∧ fallbackDecision (RRTPlanReturn.mk (some [[0]]) none (some (RRTMaps.mk (-1))))
        (some [[0]]) (fun _ _ => 0) (some (Except.ok [[5]])) =
      some (if ltScore (EvaluatePlan (fun _ _ => 0) [[5]]) none
        then RRTPlanReturn.mk (some [[5]]) none none
        else RRTPlanReturn.mk (some [[0]]) none (some (RRTMaps.mk (-1)))) :=
  ⟨by decide, ((planParallel_fallback_choice (RRTPlanReturn.mk (some [[0]]) none
    (some (RRTMaps.mk (-1)))) (some [[0]]) (fun _ _ => 0) true none (by decide)).2.2 [[5]])⟩

/-- C10: on planner success the seed for the next waypoint is the last
configuration of the returned path, read with the unguarded index at
length minus one; a successful empty path makes that index out of range,
embedded as the none result, since no emptiness check precedes it; a
planner error propagates unchanged. -/
theorem planSingleAtomicWaypoint_lastSeed :
    (∀ (steps : List Config) (h : steps ≠ []),
      planSingleAtomicWaypointSeed (Except.ok steps) =
        some (Except.ok (steps.getLast h, steps)))
    ∧ planSingleAtomicWaypointSeed (Except.ok []) = none
    ∧ (∀ e, planSingleAtomicWaypointSeed (Except.error e) = some (Except.error e)) := by
  refine ⟨?_, rfl, fun e => rfl⟩
  intro steps h
  simp only [planSingleAtomicWaypointSeed]
  rw [← List.getLast?_eq_getElem?, List.getLast?_eq_getLast _ h]

/-- Witness for C10: a two-configuration path hands its final
configuration on as the seed of the next waypoint. -/
theorem planSingleAtomicWaypoint_lastSeed_witness :
    (([[1], [2]] : List Config) ≠ [])
    ∧ planSingleAtomicWaypointSeed (Except.ok ([[1], [2]] : List Config)) =
      some (Except.ok (([[1], [2]] : List Config).getLast (by decide), [[1], [2]])) :=
  ⟨by decide, planSingleAtomicWaypoint_lastSeed.1 [[1], [2]] (by decide)⟩

/-- C5: with more than one sub-goal the IK viability query on the final
goal from the original seed runs first and its error fails the request
with the planning thunk never consulted; a planning error behind a passed
viability check comes back wrapped with the failed-plan message; with a
single sub-goal the result is the planning result itself, with no
viability check and no wrapping. -/
theorem planSingleWaypoint_viability {P : Type} (getSolutions : P → Config → Except String Unit)
    (goals : List P) (goalPos : P) (seed : Config) :
    (∀ e, getSolutions goalPos seed = Except.error e → 1 < goals.length →
      ∀ planAtomic, planSingleWaypointFinal getSolutions planAtomic goals goalPos seed =
        Except.error e)
    ∧ (∀ planAtomic e, 1 < goals.length → getSolutions goalPos seed = Except.ok () →
        planAtomic () = Except.error e →
        planSingleWaypointFinal getSolutions planAtomic goals goalPos seed =
          Except.error (failedPlanMsg ++ e))
    ∧ (∀ planAtomic r, 1 < goals.length → getSolutions goalPos seed = Except.ok () →
        planAtomic () = Except.ok r →
        planSingleWaypointFinal getSolutions planAtomic goals goalPos seed = Except.ok r)
    ∧ (goals.length ≤ 1 → ∀ planAtomic,
        planSingleWaypointFinal getSolutions planAtomic goals goalPos seed = planAtomic ()) := by
  refine ⟨?_, ?_, ?_, ?_⟩
  · intro e hik hlen planAtomic
    unfold planSingleWaypointFinal
    rw [if_pos hlen, hik]
  · intro planAtomic e hlen hik hplan
    unfold planSingleWaypointFinal
    rw [if_pos hlen, hik, hplan]
  · intro planAtomic r hlen hik hplan
    unfold planSingleWaypointFinal
    rw [if_pos hlen, hik, hplan]
  · intro hlen planAtomic
    unfold planSingleWaypointFinal
    rw [if_neg (not_lt.mpr hlen)]
    cases hp : planAtomic () with
    | error e => rfl
    | ok r => rfl

/-- Witness for C5: two sub-goals, a passing viability check and a failing
planner produce the wrapped error message. -/
theorem planSingleWaypoint_viability_witness :
    1 < ([(), ()] : List Unit).length
    ∧ planSingleWaypointFinal (fun _ _ => Except.ok ()) (fun _ => Except.error sampleErr)
        [(), ()] () [] = Except.error (failedPlanMsg ++ sampleErr) :=
  ⟨by decide, (planSingleWaypoint_viability (fun _ _ => Except.ok ()) [(), ()] () []).2.1
    (fun _ => Except.error sampleErr) sampleErr (by decide) rfl rfl⟩

/-! Lemmas about the per-planner random seed derivation. -/

theorem drawAt_succ {S : Type} (draw : S → ℤ × S) (st : S) (n : Nat) :
    drawAt draw st (n + 1) = drawAt draw (draw st).2 n := rfl

theorem managerDrawCount_cons (e : OptMap) (l : List OptMap) :
    managerDrawCount (e :: l) = (if hasIntRseed e then 0 else 1) + managerDrawCount l := by
  unfold managerDrawCount
  cases h : hasIntRseed e <;> simp [List.filter_cons, h, Nat.add_comm]

theorem buildPlannerSeeds_length {S : Type} (draw : S → ℤ × S) :
    ∀ (opts : List OptMap) (st : S),
      (buildPlannerSeeds draw opts st).1.length = opts.length := by
  intro opts
  induction opts with
  | nil => intro st; rfl
  | cons e rest ih => intro st; simp [buildPlannerSeeds, ih]

theorem buildPlannerSeeds_spec {S : Type} (draw : S → ℤ × S) :
    ∀ (opts : List OptMap) (st : S) (k : Nat), k < opts.length →
      (buildPlannerSeeds draw opts st).1[k]? =
        some (match lookupOpt (opts.getD k []) rseedKey with
          | some (OptVal.int s2) => s2
          | _ => drawAt draw st (managerDrawCount (opts.take k))) := by
  intro opts
  induction opts with
  | nil => intro st k hk; simp at hk
  | cons e rest ih =>
    intro st k hk
    cases k with
    | zero =>
      simp only [buildPlannerSeeds, List.getElem?_cons_zero, List.getD, List.take_zero]
      unfold derivePlannerSeed
      cases hre : lookupOpt e rseedKey with
      | none => simp [hre, managerDrawCount, drawAt, drawIter]
      | some v =>
        cases v with
        | int n => simp [hre, managerDrawCount, drawAt, drawIter]
        | num q => simp [hre, managerDrawCount, drawAt, drawIter]
        | str s2 => simp [hre, managerDrawCount, drawAt, drawIter]
        | boolean b => simp [hre, managerDrawCount, drawAt, drawIter]
    | succ k =>
      have hk2 : k < rest.length := by simpa using hk
      simp only [buildPlannerSeeds, List.getElem?_cons_succ, List.getD_cons_succ,
        List.take_succ_cons]
      rw [ih (derivePlannerSeed draw e st).2 k hk2]
      rw [managerDrawCount_cons]
      unfold derivePlannerSeed hasIntRseed
      cases hre : lookupOpt e rseedKey with
      | none => simp [drawAt_succ, Nat.add_comm]
      | some v =>
        cases v with
        | int n => simp
        | num q => simp [drawAt_succ, Nat.add_comm]
        | str s2 => simp [drawAt_succ, Nat.add_comm]
        | boolean b => simp [drawAt_succ, Nat.add_comm]

/-- C8: the composite path is a function of the request inputs alone: two
invocations with equal manager random sources, equal external planner
behaviour, equal options lists and equal manager states produce the same
path; and the random seed handed to the planner of waypoint k is derived
deterministically, being the integer rseed entry of that waypoint's extras
when present, and otherwise the next undrawn value of the manager's own
seeded random stream. -/
theorem planSingleWaypoint_deterministic {S Path : Type} (draw : S → ℤ × S)
    (planWith : List ℤ → Path) (opts : List OptMap) (st : S) :
    (∀ (draw2 : S → ℤ × S) (planWith2 : List ℤ → Path) (opts2 : List OptMap) (st2 : S),
      draw2 = draw → planWith2 = planWith → opts2 = opts → st2 = st →
      planSingleWaypointPipeline draw2 planWith2 opts2 st2 =
        planSingleWaypointPipeline draw planWith opts st)
    ∧ (buildPlannerSeeds draw opts st).1.length = opts.length
    ∧ (∀ k, k < opts.length →
      (buildPlannerSeeds draw opts st).1[k]? =
        some (match lookupOpt (opts.getD k []) rseedKey with
          | some (OptVal.int s2) => s2
          | _ => drawAt draw st (managerDrawCount (opts.take k)))) := by
  refine ⟨?_, buildPlannerSeeds_length draw opts st, fun k hk => buildPlannerSeeds_spec draw opts st k hk⟩
  intro draw2 planWith2 opts2 st2 h1 h2 h3 h4
  rw [h1, h2, h3, h4]

/-- Witness for C8: a two-waypoint request whose first waypoint carries an
integer rseed and whose second draws from the manager stream. -/
theorem planSingleWaypoint_deterministic_witness :
    (0 : Nat) < ([[(rseedKey, OptVal.int 7)], []] : List OptMap).length
    ∧ (1 : Nat) < ([[(rseedKey, OptVal.int 7)], []] : List OptMap).length
    ∧ (buildPlannerSeeds (fun n => ((n : ℤ), n + 1)) [[(rseedKey, OptVal.int 7)], []] (0 : Nat)).1[0]? =
      some (match lookupOpt (([[(rseedKey, OptVal.int 7)], []] : List OptMap).getD 0 []) rseedKey with
        | some (OptVal.int s2) => s2
        | _ => drawAt (fun n => ((n : ℤ), n + 1)) 0
            (managerDrawCount (([[(rseedKey, OptVal.int 7)], []] : List OptMap).take 0)))
    ∧ (buildPlannerSeeds (fun n => ((n : ℤ), n + 1)) [[(rseedKey, OptVal.int 7)], []] (0 : Nat)).1[1]? =
      some (match lookupOpt (([[(rseedKey, OptVal.int 7)], []] : List OptMap).getD 1 []) rseedKey with
        | some (OptVal.int s2) => s2
        | _ => drawAt (fun n => ((n : ℤ), n + 1)) 0
            (managerDrawCount (([[(rseedKey, OptVal.int 7)], []] : List OptMap).take 1))) :=
  ⟨by decide, by decide,
    (planSingleWaypoint_deterministic (fun n => ((n : ℤ), n + 1)) (fun l => l)
      [[(rseedKey, OptVal.int 7)], []] 0).2.2 0 (by decide),
    (planSingleWaypoint_deterministic (fun n => ((n : ℤ), n + 1)) (fun l => l)
      [[(rseedKey, OptVal.int 7)], []] 0).2.2 1 (by decide)⟩

/-! Characterisation of the linear-profile goal loop. -/

theorem decomposeAuxCount_spec {P : Type} (interp : P → P → ℚ → P) (s g : P) (N : Nat) :
    ∀ (k i : Nat) (fp : P),
      decomposeAuxCount interp s g N k i fp =
        ((List.range' i k).map (fun j : Nat => interp s g ((j : ℚ) / (N : ℚ))) ++ [g],
         List.zip (fp :: ((List.range' i k).map (fun j : Nat => interp s g ((j : ℚ) / (N : ℚ))) ++ [g]))
                  ((List.range' i k).map (fun j : Nat => interp s g ((j : ℚ) / (N : ℚ))) ++ [g])) := by
  intro k
  induction k with
  | zero =>
    intro i fp
    rfl
  | succ k ih =>
    intro i fp
    rw [List.range'_succ i k 1]
    simp only [List.map_cons, List.cons_append, List.zip_cons_cons]
    show (interp s g ((i : ℚ) / (N : ℚ)) ::
        (decomposeAuxCount interp s g N k (i + 1) (interp s g ((i : ℚ) / (N : ℚ)))).1,
      (fp, interp s g ((i : ℚ) / (N : ℚ))) ::
        (decomposeAuxCount interp s g N k (i + 1) (interp s g ((i : ℚ) / (N : ℚ)))).2) = _
    rw [ih (i + 1) (interp s g ((i : ℚ) / (N : ℚ)))]

/-- C4: a non-linear motion profile yields exactly one goal, the goal pose
itself, set up from the seed pose; the linear profile with step count N of
at least one, under the interpolation property that parameter N over N
returns the goal pose, yields exactly the N goals interpolated at the
parameters one over N up to N over N, of which the last is the goal pose,
and the from-and-to pose pairs of the per-segment option setups chain
exactly: they are the adjacent pairs of the seed pose followed by the
goals, so the first runs from the seed pose and each later one runs from
the previous sub-goal. -/
theorem planSingleWaypoint_decomposition {P : Type} (interp : P → P → ℚ → P)
    (pathStepCount : P → P → ℚ → Nat) (seedPos goalPos : P) (motionConfig : OptMap)
    (N : Nat) :
    (lookupOpt motionConfig motionProfileKey ≠ some (OptVal.str LinearMotionProfile) →
      planSingleWaypointDecompose interp pathStepCount seedPos goalPos motionConfig =
        ([goalPos], [(seedPos, goalPos)]))
    ∧ (lookupOpt motionConfig motionProfileKey = some (OptVal.str LinearMotionProfile) →
       N = pathStepCount seedPos goalPos (pathStepSizeFromOpts motionConfig) →
       1 ≤ N →
       interp seedPos goalPos ((N : ℚ) / (N : ℚ)) = goalPos →
       (planSingleWaypointDecompose interp pathStepCount seedPos goalPos motionConfig).1 =
          (List.range' 1 N).map (fun j : Nat => interp seedPos goalPos ((j : ℚ) / (N : ℚ)))
       ∧ (planSingleWaypointDecompose interp pathStepCount seedPos goalPos motionConfig).1.length = N
       ∧ (planSingleWaypointDecompose interp pathStepCount seedPos goalPos motionConfig).1.getLast?
           = some goalPos
       ∧ (planSingleWaypointDecompose interp pathStepCount seedPos goalPos motionConfig).2 =
          List.zip
            (seedPos :: (planSingleWaypointDecompose interp pathStepCount seedPos goalPos motionConfig).1)
            ((planSingleWaypointDecompose interp pathStepCount seedPos goalPos motionConfig).1)) := by
  constructor
  · intro hneq
    unfold planSingleWaypointDecompose
    rw [if_neg hneq]
  · intro hprof hN h1 hint
    have hdec : planSingleWaypointDecompose interp pathStepCount seedPos goalPos motionConfig =
        ((List.range' 1 (N - 1)).map (fun j : Nat => interp seedPos goalPos ((j : ℚ) / (N : ℚ))) ++ [goalPos],
         List.zip (seedPos :: ((List.range' 1 (N - 1)).map
             (fun j : Nat => interp seedPos goalPos ((j : ℚ) / (N : ℚ))) ++ [goalPos]))
           ((List.range' 1 (N - 1)).map
             (fun j : Nat => interp seedPos goalPos ((j : ℚ) / (N : ℚ))) ++ [goalPos])) := by
      unfold planSingleWaypointDecompose
      rw [if_pos hprof]
      unfold decomposeAux
      rw [← hN]
      exact decomposeAuxCount_spec interp seedPos goalPos N (N - 1) 1 seedPos
    have hlist : (List.range' 1 (N - 1)).map
          (fun j : Nat => interp seedPos goalPos ((j : ℚ) / (N : ℚ))) ++ [goalPos] =
        (List.range' 1 N).map (fun j : Nat => interp seedPos goalPos ((j : ℚ) / (N : ℚ))) := by
      have hsplit : N = (N - 1) + 1 := by omega
      have hidx : (1 + (N - 1) : Nat) = N := by omega
      have hr : List.range' 1 N = List.range' 1 (N - 1) ++ [N] := by
        have h2 := List.range'_1_concat 1 (N - 1)
        rw [hidx] at h2
        rw [← hsplit] at h2
        exact h2
      rw [hr, List.map_append, List.map_cons, List.map_nil, hint]
    refine ⟨?_, ?_, ?_, ?_⟩
    · rw [hdec, hlist]
    · rw [hdec]
      simp only [hlist]
      simp [List.length_range']
    · rw [hdec]
      exact List.getLast?_concat _
    · rw [hdec, hlist]

/-- Witness for C4: a linear request decomposed into three sub-goals by a
constant-goal interpolation chains its three setup segments from the seed
through the sub-goals. -/
theorem planSingleWaypoint_decomposition_witness :
    lookupOpt [(motionProfileKey, OptVal.str LinearMotionProfile)] motionProfileKey =
      some (OptVal.str LinearMotionProfile)
    ∧ (1 : Nat) ≤ 3
    ∧ ((planSingleWaypointDecompose (fun _ g _ => g) (fun _ _ _ => 3) (0 : ℚ) 5
        [(motionProfileKey, OptVal.str LinearMotionProfile)]).1 = [5, 5, 5]
      ∧ (planSingleWaypointDecompose (fun _ g _ => g) (fun _ _ _ => 3) (0 : ℚ) 5
        [(motionProfileKey, OptVal.str LinearMotionProfile)]).1.length = 3
      ∧ (planSingleWaypointDecompose (fun _ g _ => g) (fun _ _ _ => 3) (0 : ℚ) 5
        [(motionProfileKey, OptVal.str LinearMotionProfile)]).1.getLast? = some 5
      ∧ (planSingleWaypointDecompose (fun _ g _ => g) (fun _ _ _ => 3) (0 : ℚ) 5
        [(motionProfileKey, OptVal.str LinearMotionProfile)]).2 = [(0, 5), (5, 5), (5, 5)]) :=
  ⟨rfl, by decide,
    (planSingleWaypoint_decomposition (fun _ g _ => g) (fun _ _ _ => 3) (0 : ℚ) 5
      [(motionProfileKey, OptVal.str LinearMotionProfile)] 3).2 rfl rfl (by decide) rfl⟩


/-! Lemmas about the collision graph distance table. -/

theorem lookupDist_updateDist (d : Distances) (a b p q2 : String) (v : FVal) :
    lookupDist (updateDist d a b v) p q2 =
      if a = p ∧ b = q2 then some v else lookupDist d p q2 := by
  simp [updateDist, lookupDist]

theorem mem_key_of_lookupDist_some (d : Distances) (a b : String) (v : FVal)
    (h : lookupDist d a b = some v) : ((a, b), v) ∈ d := by
  induction d with
  | nil => simp [lookupDist] at h
  | cons e rest ih =>
    obtain ⟨⟨x, y⟩, w⟩ := e
    by_cases hk : x = a ∧ y = b
    · obtain ⟨hx, hy⟩ := hk
      subst hx
      subst hy
      rw [lookupDist, if_pos ⟨rfl, rfl⟩] at h
      cases h
      exact List.mem_cons_self _ _
    · rw [lookupDist, if_neg hk] at h
      exact List.mem_cons_of_mem _ (ih h)

theorem lookupDist_isSome_of_mem (d : Distances) (a b : String) (v : FVal)
    (h : ((a, b), v) ∈ d) : (lookupDist d a b).isSome := by
  induction d with
  | nil => cases h
  | cons e rest ih =>
    obtain ⟨⟨x, y⟩, w⟩ := e
    by_cases hk : x = a ∧ y = b
    · rw [lookupDist, if_pos hk]
      rfl
    · rw [lookupDist, if_neg hk]
      rcases List.mem_cons.mp h with he | hm
      · exfalso
        apply hk
        injection he with h1 h2
        injection h1 with h3 h4
        exact ⟨h3.symm, h4.symm⟩
      · exact ih hm

theorem wfDistances_lookup (d : Distances) (hwf : wfDistances d = true) (a b : String)
    (hne : a ≠ b) : lookupDist d a b = none ∨ lookupDist d b a = none := by
  cases h1 : lookupDist d a b with
  | none => exact Or.inl rfl
  | some v =>
    right
    have hmem := mem_key_of_lookupDist_some d a b v h1
    have hall := List.all_eq_true.mp hwf _ hmem
    simp only [Bool.or_eq_true, decide_eq_true_eq, Option.isNone_iff_eq_none] at hall
    rcases hall with h2 | h2
    · exact absurd h2 hne
    · exact h2

theorem wfDistances_of_pointwise (d : Distances)
    (h : ∀ a b : String, a ≠ b → lookupDist d a b = none ∨ lookupDist d b a = none) :
    wfDistances d = true := by
  apply List.all_eq_true.mpr
  intro e he
  obtain ⟨⟨x, y⟩, v⟩ := e
  by_cases hxy : x = y
  · simp [hxy]
  · have hs := lookupDist_isSome_of_mem d x y v he
    rcases h x y hxy with h1 | h1
    · rw [h1] at hs
      cases hs
    · simp [hxy, h1]

theorem setDistance_pointwise (d : Distances) (x y : String) (v : FVal)
    (h : ∀ a b : String, a ≠ b → lookupDist d a b = none ∨ lookupDist d b a = none) :
    ∀ a b : String, a ≠ b →
      lookupDist (setDistance d x y v) a b = none ∨
      lookupDist (setDistance d x y v) b a = none := by
  intro a b hne
  unfold setDistance
  by_cases hyx : (lookupDist d y x).isSome
  · rw [if_pos hyx]
    rw [lookupDist_updateDist, lookupDist_updateDist]
    by_cases hk1 : y = a ∧ x = b
    · obtain ⟨hya, hxb⟩ := hk1
      subst hya
      subst hxb
      right
      rw [if_neg (by tauto)]
      rcases h y x hne with h1 | h1
      · rw [h1] at hyx
        cases hyx
      · exact h1
    · by_cases hk2 : y = b ∧ x = a
      · obtain ⟨hyb, hxa⟩ := hk2
        subst hyb
        subst hxa
        left
        rw [if_neg (by tauto)]
        rcases h y x (Ne.symm hne) with h1 | h1
        · rw [h1] at hyx
          cases hyx
        · exact h1
      · rw [if_neg hk1, if_neg hk2]
        exact h a b hne
  · rw [if_neg hyx]
    rw [lookupDist_updateDist, lookupDist_updateDist]
    rw [Option.not_isSome_iff_eq_none] at hyx
    by_cases hk1 : x = a ∧ y = b
    · obtain ⟨hxa, hyb⟩ := hk1
      subst hxa
      subst hyb
      right
      rw [if_neg (by tauto)]
      exact hyx
    · by_cases hk2 : x = b ∧ y = a
      · obtain ⟨hxb, hya⟩ := hk2
        subst hxb
        subst hya
        left
        rw [if_neg (by tauto)]
        exact hyx
      · rw [if_neg hk1, if_neg hk2]
        exact h a b hne

theorem cgPairStep_cases (distFn : Nat → Nat → FVal) (collidesFn : Nat → Nat → Bool)
    (reference : Option Distances) (reportDistances : Bool)
    (st : Distances × Bool) (xe ye : String × Nat) :
    (cgPairStep distFn collidesFn reference reportDistances st xe ye).1 = st.1 ∨
    ∃ v, (cgPairStep distFn collidesFn reference reportDistances st xe ye).1 =
      setDistance st.1 xe.1 ye.1 v := by
  unfold cgPairStep
  split
  · exact Or.inl rfl
  · split
    · exact Or.inl rfl
    · split
      · exact Or.inr ⟨_, rfl⟩
      · exact Or.inr ⟨_, rfl⟩

theorem foldl_cgPairStep_pointwise (distFn : Nat → Nat → FVal) (collidesFn : Nat → Nat → Bool)
    (reference : Option Distances) (reportDistances : Bool) (xe : String × Nat) :
    ∀ (yy : List (String × Nat)) (st : Distances × Bool),
      (∀ a b : String, a ≠ b → lookupDist st.1 a b = none ∨ lookupDist st.1 b a = none) →
      ∀ a b : String, a ≠ b →
        lookupDist (yy.foldl (fun st2 ye =>
          cgPairStep distFn collidesFn reference reportDistances st2 xe ye) st).1 a b = none ∨
        lookupDist (yy.foldl (fun st2 ye =>
          cgPairStep distFn collidesFn reference reportDistances st2 xe ye) st).1 b a = none := by
  intro yy
  induction yy with
  | nil => intro st h; exact h
  | cons ye rest ih =>
    intro st h
    rw [List.foldl_cons]
    apply ih
    intro a b hne
    rcases cgPairStep_cases distFn collidesFn reference reportDistances st xe ye with he | ⟨v, he⟩
    · rw [he]
      exact h a b hne
    · rw [he]
      exact setDistance_pointwise st.1 xe.1 ye.1 v h a b hne

theorem newCollisionGraph_pointwise (distFn : Nat → Nat → FVal) (collidesFn : Nat → Nat → Bool)
    (reference : Option Distances) (reportDistances : Bool)
    (x : List (String × Nat)) (y : Option (List (String × Nat))) :
    ∀ a b : String, a ≠ b →
      lookupDist (newCollisionGraph distFn collidesFn reference reportDistances x y) a b = none ∨
      lookupDist (newCollisionGraph distFn collidesFn reference reportDistances x y) b a = none := by
  unfold newCollisionGraph
  generalize (match y with | none => x | some l => l) = yy
  suffices hgen : ∀ (xs : List (String × Nat)) (st : Distances × Bool),
      (∀ a b : String, a ≠ b → lookupDist st.1 a b = none ∨ lookupDist st.1 b a = none) →
      ∀ a b : String, a ≠ b →
        lookupDist (xs.foldl (fun st xe => yy.foldl (fun st2 ye =>
          cgPairStep distFn collidesFn reference reportDistances st2 xe ye) st) st).1 a b = none ∨
        lookupDist (xs.foldl (fun st xe => yy.foldl (fun st2 ye =>
          cgPairStep distFn collidesFn reference reportDistances st2 xe ye) st) st).1 b a = none by
    apply hgen
    intro a b hne
    exact Or.inl rfl
  intro xs
  induction xs with
  | nil => intro st h; exact h
  | cons xe rest ih =>
    intro st h
    rw [List.foldl_cons]
    apply ih
    exact foldl_cgPairStep_pointwise distFn collidesFn reference reportDistances xe yy st h

/-- C9: a well-formed distance table stores each pair under one
orientation only, so the two-sided lookup of getDistance is symmetric and
collisionBetween is symmetric; collisionBetween is true exactly when a
distance is stored for the pair and it compares at or below the collision
buffer, so a pair never set or set to NaN is never reported as a
collision; and every table built by newCollisionGraph is well formed. -/
theorem collisionGraph_unordered_symm :
    (∀ (d : Distances), wfDistances d = true → ∀ a b : String,
        getDistance d a b = getDistance d b a ∧
        collisionBetween d a b = collisionBetween d b a)
    ∧ (∀ (d : Distances) (a b : String),
        collisionBetween d a b = true ↔
          ∃ v, getDistance d a b = some v ∧ FVal.leq v CollisionBuffer = true)
    ∧ (∀ (d : Distances) (a b : String), getDistance d a b = none →
        collisionBetween d a b = false)
    ∧ (∀ (d : Distances) (a b : String), getDistance d a b = some FVal.nan →
        collisionBetween d a b = false)
    ∧ (∀ (distFn : Nat → Nat → FVal) (collidesFn : Nat → Nat → Bool)
        (reference : Option Distances) (reportDistances : Bool)
        (x : List (String × Nat)) (y : Option (List (String × Nat))),
        wfDistances (newCollisionGraph distFn collidesFn reference reportDistances x y) = true) := by
  have hsymm : ∀ (d : Distances), wfDistances d = true → ∀ a b : String,
      getDistance d a b = getDistance d b a := by
    intro d hwf a b
    by_cases hab : a = b
    · subst hab
      rfl
    · rcases wfDistances_lookup d hwf a b hab with h1 | h1
      · unfold getDistance
        rw [h1]
        cases h2 : lookupDist d b a with
        | none => simp [h1]
        | some w => simp
      · unfold getDistance
        rw [h1]
        cases h2 : lookupDist d a b with
        | none => simp [h1]
        | some w => simp
  refine ⟨fun d hwf a b => ⟨hsymm d hwf a b, ?_⟩, ?_, ?_, ?_, ?_⟩
  · unfold collisionBetween
    rw [hsymm d hwf a b]
  · intro d a b
    unfold collisionBetween
    cases h : getDistance d a b with
    | none => simp
    | some v => simp
  · intro d a b h
    unfold collisionBetween
    rw [h]
  · intro d a b h
    unfold collisionBetween
    rw [h]
    rfl
  · intro distFn collidesFn reference reportDistances x y
    exact wfDistances_of_pointwise _
      (newCollisionGraph_pointwise distFn collidesFn reference reportDistances x y)

/-- Witness for C9: a two-entry table storing a collision under one
orientation and an ignored NaN pair is well formed, queries symmetrically,
and never reports the NaN pair. -/
theorem collisionGraph_unordered_symm_witness :
    wfDistances sampleGraph = true
    ∧ getDistance sampleGraph gnameA gnameB = getDistance sampleGraph gnameB gnameA
    ∧ collisionBetween sampleGraph gnameA gnameB = collisionBetween sampleGraph gnameB gnameA
    ∧ collisionBetween sampleGraph gnameA gnameC = false :=
  ⟨by decide,
   (collisionGraph_unordered_symm.1 sampleGraph (by decide) gnameA gnameB).1,
   (collisionGraph_unordered_symm.1 sampleGraph (by decide) gnameA gnameB).2,
   collisionGraph_unordered_symm.2.2.2.1 sampleGraph gnameA gnameC (by decide)⟩

end Motionplan
